import Mathlib

/-!
Verification of the whisperlink desktop client core: the inter-process
command bridge in the electron main process and the polling-based state
synchronization logic of the React context providers.  Every definition is a
shallow embedding of the corresponding JavaScript function; times are in the
specification time units (one unit = 1000 ms), so the 15000 ms command
timeout is 15 units and the 5000 ms termination grace period is 5 units.
-/

/- Section 1: response correlation of concurrent python-command invocations.

In the electron main process every python-command invocation attaches its own
responseHandler to the shared stdout stream of the worker and resolves with
the first decodable line it sees, then detaches itself.  A stdout line is
therefore broadcast to every attached, still unresolved handler. -/

/-- One line emitted on the worker stdout: an abstract payload identity and
whether the line decodes as a response record (nonempty, brace-led, valid
JSON). -/
structure BLine where
  payload : Nat
  decodable : Bool
deriving DecidableEq, Repr

/-- Deliver a stream of stdout lines to the attached pending handlers.
Each decodable line resolves every currently attached handler with that
line (each handler scans its own copy of the buffer, resolves with the first
decodable line, and removes itself).  Returns the list of resolutions as
pairs of caller and received payload, in resolution order. -/
def runBridge (pending : List Nat) (lines : List BLine) : List (Nat × Nat) :=
  match lines with
  | [] => []
  | l :: rest =>
    if l.decodable then
      pending.map (fun w => (w, l.payload)) ++ runBridge [] rest
    else
      runBridge pending rest

/- Section 2: worker process supervision (startPythonBackend,
stopPythonBackend and the forced-termination escalation timer).

The timer callback installed by stopPythonBackend reads the mutable global
variable pythonProcess, not the process it sent SIGTERM to; stopPythonBackend
nulls that global immediately and a later startPythonBackend repoints it at a
fresh process. -/

/-- A spawned worker process.  killedFlag mirrors the node subprocess killed
property: it becomes true as soon as any signal was successfully sent. -/
structure WProc where
  pid : Nat
  killedFlag : Bool
  gotSigterm : Bool
  gotSigkill : Bool
  exitCode : Option Int
deriving DecidableEq, Repr

/-- Supervisor state: all processes ever spawned, the mutable global
pythonProcess reference (by pid), and the fire times of pending
forced-termination timers. -/
structure SupState where
  procs : List WProc
  pythonProcess : Option Nat
  killTimers : List Nat
deriving DecidableEq, Repr

/-- Look up a spawned process by pid. -/
def findProc (s : SupState) (pid : Nat) : Option WProc :=
  s.procs.find? (fun p => p.pid == pid)

/-- Send a signal to the process with the given pid: sets its killed flag and
records which signal was delivered (sigkill selects SIGKILL over SIGTERM). -/
def sendSignal (s : SupState) (pid : Nat) (sigkill : Bool) : SupState :=
  { s with procs := s.procs.map (fun p =>
      if p.pid == pid then
        { p with killedFlag := true,
                 gotSigterm := p.gotSigterm || !sigkill,
                 gotSigkill := p.gotSigkill || sigkill }
      else p) }

/-- stopPythonBackend: if the global reference holds a process whose killed
flag is clear, send SIGTERM to it and schedule a forced-termination timer
for 5 units later; in every case clear the global reference immediately. -/
def stopPythonBackend (now : Nat) (s : SupState) : SupState :=
  let s2 :=
    match s.pythonProcess with
    | some pid =>
      match findProc s pid with
      | some p =>
        if !p.killedFlag then
          let s3 := sendSignal s pid false
          { s3 with killTimers := s3.killTimers ++ [now + 5] }
        else s
      | none => s
    | none => s
  { s2 with pythonProcess := none }

/-- Spawn a fresh worker process and point the global reference at it. -/
def spawnProc (s : SupState) (newPid : Nat) : SupState :=
  { s with procs := s.procs ++ [⟨newPid, false, false, false, none⟩],
           pythonProcess := some newPid }

/-- startPythonBackend: a no-op when the global reference holds a process
that is not killed and has not exited; otherwise spawn a fresh process. -/
def startPythonBackend (s : SupState) (newPid : Nat) : SupState :=
  match s.pythonProcess with
  | some pid =>
    match findProc s pid with
    | some p =>
      if !p.killedFlag && p.exitCode.isNone then s else spawnProc s newPid
    | none => spawnProc s newPid
  | none => spawnProc s newPid

/-- The forced-termination timer callback: reads the current value of the
global pythonProcess reference and sends SIGKILL to that process when its
killed flag is clear. -/
def fireKillTimer (s : SupState) : SupState :=
  match s.pythonProcess with
  | some pid =>
    match findProc s pid with
    | some p => if !p.killedFlag then sendSignal s pid true else s
    | none => s
  | none => s

/-- Initial state of the restart scenario: worker pid 1 is running and the
global reference points at it. -/
def restartTrace0 : SupState := ⟨[⟨1, false, false, false, none⟩], some 1, []⟩

/-- stop is called at time 0: pid 1 receives SIGTERM, a forced-termination
timer is scheduled for time 5, the global reference is cleared. -/
def restartTrace1 : SupState := stopPythonBackend 0 restartTrace0

/-- The restart handler calls start 1 unit later (pid 1 ignored SIGTERM and
has not exited): worker pid 2 is spawned. -/
def restartTrace2 : SupState := startPythonBackend restartTrace1 2

/-- The forced-termination timer fires at time 5. -/
def restartTrace3 : SupState := fireKillTimer restartTrace2

/-- Claim C1: with two concurrent invocations pending (callers 1 and 2) and
the worker emitting exactly one response line per call in order (payload 100
answers caller 1, payload 200 answers caller 2), the first decodable line
resolves both callers: caller 2 receives payload 100, the response of caller
1, not its own payload 200.  This evaluates the order-broadcast correlation
of the bridge at the failing input. -/
theorem runBridge_concurrent_misdelivery :
    runBridge [1, 2] [⟨100, true⟩, ⟨200, true⟩] = [(1, 100), (2, 100)] ∧
    (100 : Nat) ≠ 200 := by
  decide

/-- Claim C2: in the trace stop at 0, start at 1, timer at 5, the
forced-termination escalation SIGKILLs worker pid 2 — the worker spawned by
the subsequent start — while the old worker pid 1 never receives SIGKILL and
has not exited; moreover after the new spawn both processes are
simultaneously unexited, refuting the at-most-one-running invariant. -/
theorem stopPythonBackend_escalation_wrong_target :
    ((findProc restartTrace3 2).map WProc.gotSigkill = some true) ∧
    ((findProc restartTrace3 1).map WProc.gotSigkill = some false) ∧
    ((findProc restartTrace3 1).map WProc.exitCode = some none) ∧
    restartTrace1.killTimers = [5] ∧
    ((restartTrace2.procs.filter (fun p => p.exitCode.isNone)).length = 2) := by
  decide

/- Section 3: a single python-command invocation (guard, write, response
race against the 15 unit timer) and the renderer-side executeCommand retry
loop built on top of it. -/

/-- The worker process handle as the python-command guard sees it. -/
structure PyProc where
  killed : Bool
  exitCode : Option Int
deriving DecidableEq, Repr

/-- A line arriving on the worker stdout during one invocation: arrival time
in units after the write, whether it decodes, and its payload identity. -/
structure RespLine where
  arrival : Nat
  decodable : Bool
  payload : Nat
deriving DecidableEq, Repr

/-- Failure modes of a single python-command invocation. -/
inductive CmdFailure where
  | unavailable
  | notRunning
  | timeout
deriving DecidableEq, Repr

/-- Decidable equality of Except values, needed to evaluate invocation
outcomes on concrete inputs. -/
instance {α β : Type} [DecidableEq α] [DecidableEq β] : DecidableEq (Except α β) :=
  fun x y =>
    match x, y with
    | Except.ok a, Except.ok b =>
      if h : a = b then isTrue (by rw [h]) else isFalse (by intro hh; cases hh; exact h rfl)
    | Except.error a, Except.error b =>
      if h : a = b then isTrue (by rw [h]) else isFalse (by intro hh; cases hh; exact h rfl)
    | Except.ok _, Except.error _ => isFalse (by intro hh; cases hh)
    | Except.error _, Except.ok _ => isFalse (by intro hh; cases hh)

/-- Observable record of one python-command invocation: its outcome, the
time at which it settled, whether the request was written to the transport,
and whether the invocation sent any kill signal or cleared the global
handle. -/
structure InvokeRun where
  result : Except CmdFailure Nat
  finishedAt : Nat
  wrote : Bool
  killSent : Bool
  handleCleared : Bool
deriving DecidableEq, Repr

/-- One python-command invocation.  With no process the promise is rejected
at once and nothing is written; with a killed or exited process likewise;
otherwise the request is written and the first decodable line arriving
before the 15 unit timer resolves the promise, else the timer rejects with
timeout at 15.  No code path of the handler kills the process or clears the
global handle. -/
def pythonCommand (proc : Option PyProc) (lines : List RespLine) : InvokeRun :=
  match proc with
  | none => ⟨Except.error CmdFailure.unavailable, 0, false, false, false⟩
  | some p =>
    if p.killed || p.exitCode.isSome then
      ⟨Except.error CmdFailure.notRunning, 0, false, false, false⟩
    else
      match lines.find? (fun l => decide (l.arrival < 15) && l.decodable) with
      | some l => ⟨Except.ok l.payload, l.arrival, true, false, false⟩
      | none => ⟨Except.error CmdFailure.timeout, 15, true, false, false⟩

/-- The state of the global handle after an invocation: unchanged unless the
invocation cleared it. -/
def handleAfter (proc : Option PyProc) (run : InvokeRun) : Option PyProc :=
  if run.handleCleared then none else proc

/-- The running check of the data model: a present process that was never
signalled and has not exited. -/
def procRunning : Option PyProc → Bool
  | none => false
  | some p => !p.killed && p.exitCode.isNone

/-- Result record returned by a worker command. -/
structure CmdResult where
  success : Bool
  error : Option String
deriving DecidableEq, Repr

/-- Trace of one renderer executeCommand call: how many attempts were made,
the backoff delays waited between attempts, and the final outcome. -/
structure ExecTrace where
  attempts : Nat
  delays : List Nat
  outcome : Except String CmdResult
deriving DecidableEq, Repr

/-- Exponential backoff of executeCommand in milliseconds: 1000 doubled per
completed attempt, capped at 5000. -/
def backoffDelay (attempt : Nat) : Nat :=
  min (1000 * 2 ^ (attempt - 1)) 5000

/-- The retry loop of executeCommand, parametrised by the per-attempt result
of the underlying electron call.  On an error at the last attempt the loop
throws; on an earlier error it waits the backoff delay and retries. -/
def executeCommandFrom (results : Nat → Except String CmdResult)
    (retries attempt remaining : Nat) : ExecTrace :=
  match remaining with
  | 0 => ⟨0, [], Except.error "no attempt budget"⟩
  | 1 =>
    match results attempt with
    | Except.ok r => ⟨1, [], Except.ok r⟩
    | Except.error e =>
      ⟨1, [], Except.error
        ("Failed to execute command after " ++ toString retries
          ++ " attempts: " ++ e)⟩
  | n + 2 =>
    match results attempt with
    | Except.ok r => ⟨1, [], Except.ok r⟩
    | Except.error _ =>
      let t := executeCommandFrom results retries (attempt + 1) (n + 1)
      ⟨t.attempts + 1, backoffDelay attempt :: t.delays, t.outcome⟩

/-- executeCommand with the given attempt budget (default 3 in the source):
attempts start at 1. -/
def executeCommand (results : Nat → Except String CmdResult)
    (retries : Nat) : ExecTrace :=
  executeCommandFrom results retries 1 retries

/-- The per-attempt result seen while no worker process handle exists: the
main process rejects every attempt with the same error. -/
def bridgeUnavailable : Nat → Except String CmdResult :=
  fun _ => Except.error "Python process not available"

/-- Claim C3: an invocation against a running worker whose stdout never
carries a decodable response line fails with timeout exactly at 15 units
(so at no less than 15 and less than 16), sends no kill signal, and leaves
the global handle unchanged and still running. -/
theorem pythonCommand_timeout_leaves_worker (p : PyProc) (lines : List RespLine)
    (hrun : procRunning (some p) = true)
    (hquiet : ∀ l ∈ lines, l.decodable = false) :
    (pythonCommand (some p) lines).result = Except.error CmdFailure.timeout ∧
    15 ≤ (pythonCommand (some p) lines).finishedAt ∧
    (pythonCommand (some p) lines).finishedAt < 16 ∧
    (pythonCommand (some p) lines).killSent = false ∧
    handleAfter (some p) (pythonCommand (some p) lines) = some p ∧
    procRunning (handleAfter (some p) (pythonCommand (some p) lines)) = true := by
  have hk : p.killed = false := by
    simp [procRunning] at hrun
    exact hrun.1
  have he : p.exitCode = none := by
    simp [procRunning] at hrun
    exact hrun.2
  have hfind : lines.find? (fun l => decide (l.arrival < 15) && l.decodable) = none := by
    apply List.find?_eq_none.mpr
    intro l hl
    simp [hquiet l hl]
  simp [pythonCommand, hk, he, hfind, handleAfter, procRunning]

/-- Concrete instantiation of the timeout scenario: a fresh running process
and a silent stdout. -/
theorem pythonCommand_timeout_witness :
    procRunning (some ⟨false, none⟩) = true ∧
    (pythonCommand (some ⟨false, none⟩) []).result = Except.error CmdFailure.timeout ∧
    handleAfter (some ⟨false, none⟩) (pythonCommand (some ⟨false, none⟩) []) =
      some ⟨false, none⟩ := by
  refine ⟨by decide, ?_, ?_⟩
  · exact (pythonCommand_timeout_leaves_worker ⟨false, none⟩ [] (by decide)
      (by intro l hl; cases hl)).1
  · exact (pythonCommand_timeout_leaves_worker ⟨false, none⟩ [] (by decide)
      (by intro l hl; cases hl)).2.2.2.2.1

/-- Claim C4, counterexample: with no worker process handle and the default
attempt budget of 3, executeCommand makes 3 attempts separated by backoff
delays of 1000 and 2000 milliseconds before surfacing the failure — it is
not a single immediate rejection without retry or backoff. -/
theorem executeCommand_noWorker_retries :
    (executeCommand bridgeUnavailable 3).attempts = 3 ∧
    (executeCommand bridgeUnavailable 3).delays = [1000, 2000] ∧
    ¬ ((executeCommand bridgeUnavailable 3).attempts = 1 ∧
       (executeCommand bridgeUnavailable 3).delays = []) := by
  decide

/-- With every attempt failing, the retry loop uses its whole budget: it
makes exactly remaining attempts, waits the backoff delay of each completed
attempt, and ends with a thrown error. -/
lemma executeCommandFrom_allFail (retries : Nat) :
    ∀ remaining attempt, 1 ≤ remaining →
    (executeCommandFrom bridgeUnavailable retries attempt remaining).attempts
        = remaining ∧
    (executeCommandFrom bridgeUnavailable retries attempt remaining).delays
        = (List.range (remaining - 1)).map (fun i => backoffDelay (attempt + i)) ∧
    ∃ e, (executeCommandFrom bridgeUnavailable retries attempt remaining).outcome
        = Except.error e := by
  intro remaining
  induction remaining with
  | zero => intro attempt h; omega
  | succ n ih =>
    intro attempt _
    cases n with
    | zero =>
      refine ⟨rfl, rfl, ?_⟩
      exact ⟨_, rfl⟩
    | succ m =>
      have hih := ih (attempt + 1) (by omega)
      refine ⟨?_, ?_, ?_⟩
      · show (executeCommandFrom bridgeUnavailable retries attempt (m + 2)).attempts
            = m + 2
        simp only [executeCommandFrom, bridgeUnavailable]
        rw [hih.1]
      · show (executeCommandFrom bridgeUnavailable retries attempt (m + 2)).delays
            = (List.range (m + 1)).map (fun i => backoffDelay (attempt + i))
        simp only [executeCommandFrom, bridgeUnavailable]
        rw [hih.2.1]
        rw [List.range_succ_eq_map, List.map_cons, List.map_map]
        have harg : (fun i => backoffDelay (attempt + i)) ∘ Nat.succ
            = fun i => backoffDelay (attempt + 1 + i) := by
          funext i
          simp only [Function.comp]
          congr 1
          omega
        rw [harg]
        simp
      · obtain ⟨e, he⟩ := hih.2.2
        refine ⟨e, ?_⟩
        show (executeCommandFrom bridgeUnavailable retries attempt (m + 2)).outcome
            = Except.error e
        simp only [executeCommandFrom, bridgeUnavailable]
        exact he

/-- Claim C4, amended: while no worker process handle exists the bridge
handler in the main process does reject the invocation immediately and
writes nothing to the transport, but the renderer client retries the
rejected command through its whole attempt budget, waiting the exponential
backoff delay after each failed attempt, before surfacing the failure. -/
theorem pythonCommand_unavailable_bridge_fast_renderer_retries
    (lines : List RespLine) (r : Nat) (h : 1 ≤ r) :
    (pythonCommand none lines).wrote = false ∧
    (pythonCommand none lines).result = Except.error CmdFailure.unavailable ∧
    (pythonCommand none lines).finishedAt = 0 ∧
    (executeCommand bridgeUnavailable r).attempts = r ∧
    (executeCommand bridgeUnavailable r).delays
        = (List.range (r - 1)).map (fun i => backoffDelay (1 + i)) ∧
    ∃ e, (executeCommand bridgeUnavailable r).outcome = Except.error e := by
  have hall := executeCommandFrom_allFail r r 1 h
  exact ⟨rfl, rfl, rfl, hall.1, hall.2.1, hall.2.2⟩

/-- Concrete instantiation of the amended no-worker behaviour at the default
budget of 3 attempts. -/
theorem pythonCommand_unavailable_witness :
    1 ≤ 3 ∧
    (pythonCommand none []).wrote = false ∧
    (executeCommand bridgeUnavailable 3).attempts = 3 := by
  refine ⟨by omega, ?_, ?_⟩
  · exact (pythonCommand_unavailable_bridge_fast_renderer_retries [] 3 (by omega)).1
  · exact (pythonCommand_unavailable_bridge_fast_renderer_retries [] 3 (by omega)).2.2.2.1

/- Section 4: the application context state logic (voice calls,
notifications, messages, session). -/

/-- A call signaling record as delivered by the worker. -/
structure VCall where
  call_id : Nat
  peer_id : Nat
  status : String
deriving DecidableEq, Repr

/-- loadActiveCalls after a successful get_active_calls fetch: the
active-call mirror is replaced by the fetched list; the first fetched call
with status active becomes the displayed voice call; when no fetched call is
active the displayed call is set to none only if the previous mirror (the
closure value of activeCalls) was empty, otherwise it is left unchanged. -/
def loadActiveCalls (prevMirror : List VCall) (prevDisplayed : Option VCall)
    (fetched : List VCall) : List VCall × Option VCall :=
  match fetched.find? (fun c => c.status == "active") with
  | some c => (fetched, some c)
  | none =>
    if prevMirror.length == 0 then (fetched, none) else (fetched, prevDisplayed)

/-- checkPendingCalls after a successful get_pending_calls fetch: when the
fetched list is nonempty, every fetched call whose identifier is not already
present in the incoming-call set is appended to it. -/
def mergePendingCalls (prev fetched : List VCall) : List VCall :=
  if fetched.length == 0 then prev
  else
    prev ++ fetched.filter
      (fun nc => !prev.any (fun ec => ec.call_id == nc.call_id))

/-- The call identifiers of a list of call records. -/
def callIds (l : List VCall) : List Nat := l.map VCall.call_id

/-- rejectVoiceCall: the reject_voice_call command is awaited; when it
returns a result (success or reported failure) the call is filtered out of
the incoming-call set before the result is inspected; when the command
throws, the catch block returns the error without touching the set. -/
def rejectVoiceCall (incoming : List VCall) (callId : Nat)
    (outcome : Except String CmdResult) : List VCall × CmdResult :=
  match outcome with
  | Except.ok r =>
    let remaining := incoming.filter (fun c => c.call_id != callId)
    if r.success then (remaining, ⟨true, none⟩) else (remaining, ⟨false, r.error⟩)
  | Except.error e => (incoming, ⟨false, some e⟩)

/-- A notification record; the identifier is the numeric value of the
Date.now() string taken at creation, which is also the creation stamp. -/
structure Notification where
  id : Nat
  message : String
  ntype : String
  stamp : Nat
deriving DecidableEq, Repr

/-- addNotification at clock value now: appends a notification whose
identifier and stamp are now to the ordered collection (the scheduled
auto-removal after the display duration is a later event and does not change
the appended record). -/
def addNotification (notifs : List Notification) (now : Nat)
    (message : String) (ntype : String) : List Notification :=
  notifs ++ [⟨now, message, ntype, now⟩]

/-- A message envelope materialised into a conversation history. -/
structure Envelope where
  id : Nat
  text : String
  sender : String
  mtype : String
  stamp : Nat
deriving DecidableEq, Repr

/-- sendMessage: the send_message command is awaited; on a result reporting
success, one envelope tagged sent is appended to the conversation keyed by
the peer (building the envelope reads the username of the current user, so a
missing user throws after the command and the map is left unchanged); on a
result reporting failure or a thrown command the map is left unchanged. -/
def sendMessage (msgs : String → List Envelope) (user : Option String)
    (peer text : String) (now : Nat) (outcome : Except String CmdResult) :
    (String → List Envelope) × CmdResult :=
  match outcome with
  | Except.error e => (msgs, ⟨false, some e⟩)
  | Except.ok r =>
    if r.success then
      match user with
      | some u =>
        ((fun k => if k = peer then msgs peer ++ [⟨now, text, u, "sent", now⟩]
                   else msgs k),
         ⟨true, none⟩)
      | none => (msgs, ⟨false, some "TypeError"⟩)
    else (msgs, ⟨false, r.error⟩)

/-- The authentication state of the renderer session. -/
structure AuthState where
  user : Option String
  error : Option String
  loading : Bool
deriving DecidableEq, Repr

/-- logout: the logout_user command is awaited and its result ignored; both
on completion and in the catch block the local user and the stored error are
cleared, and the finally block clears the loading flag.  The second
component is the error surfaced to the caller, which is always none because
the catch block swallows the failure. -/
def logout (st : AuthState) (outcome : Except String CmdResult) :
    AuthState × Option String :=
  match outcome with
  | Except.ok _ => (⟨none, none, false⟩, none)
  | Except.error _ => (⟨none, none, false⟩, none)

/-- Claim C5, counterexample: the previous mirror holds one call and that
call is displayed; a successful fetch returns the empty list, so no fetched
call has status active, yet the displayed call is not cleared because the
clearing branch tests the previous mirror for emptiness. -/
theorem loadActiveCalls_stale_displayed_not_cleared :
    (loadActiveCalls [⟨1, 7, "active"⟩] (some ⟨1, 7, "active"⟩) []).2
        = some ⟨1, 7, "active"⟩ ∧
    some (⟨1, 7, "active"⟩ : VCall) ≠ none := by
  decide

/-- Claim C5, amended: after a successful fetch the active-call mirror
equals the fetched list; if some fetched call has status active the first
such call becomes the displayed call; if none does, the displayed call is
cleared only when the previous mirror was empty and is otherwise left
unchanged. -/
theorem loadActiveCalls_mirror_and_display (prevMirror : List VCall)
    (prevDisplayed : Option VCall) (fetched : List VCall) :
    (loadActiveCalls prevMirror prevDisplayed fetched).1 = fetched ∧
    (∀ c, fetched.find? (fun c2 => c2.status == "active") = some c →
      (loadActiveCalls prevMirror prevDisplayed fetched).2 = some c) ∧
    (fetched.find? (fun c2 => c2.status == "active") = none →
      (loadActiveCalls prevMirror prevDisplayed fetched).2
        = (if prevMirror.length == 0 then none else prevDisplayed)) := by
  refine ⟨?_, ?_, ?_⟩
  · unfold loadActiveCalls
    cases hf : fetched.find? (fun c2 => c2.status == "active") with
    | none => by_cases hl : prevMirror.length == 0 <;> simp [hf, hl]
    | some c => simp [hf]
  · intro c hf
    unfold loadActiveCalls
    rw [hf]
  · intro hf
    unfold loadActiveCalls
    rw [hf]
    by_cases hl : prevMirror.length == 0 <;> simp [hl]

/-- Concrete instantiation of the amended display rule: a nonempty previous
mirror, no active call in the fetch, displayed call left unchanged. -/
theorem loadActiveCalls_witness :
    (List.find? (fun c2 => c2.status == "active") ([] : List VCall) = none) ∧
    (loadActiveCalls [⟨1, 7, "ended"⟩] (some ⟨1, 7, "ended"⟩) []).2
      = some ⟨1, 7, "ended"⟩ := by
  refine ⟨rfl, ?_⟩
  exact ((loadActiveCalls_mirror_and_display [⟨1, 7, "ended"⟩]
    (some ⟨1, 7, "ended"⟩) []).2.2 rfl).trans (by decide)

/-- Unconditional normal form of the pending-call merge: the guard on a
nonempty fetch list changes nothing because filtering an empty list yields
the empty list. -/
lemma mergePendingCalls_eq (prev fetched : List VCall) :
    mergePendingCalls prev fetched
      = prev ++ fetched.filter
          (fun nc => !prev.any (fun ec => ec.call_id == nc.call_id)) := by
  cases fetched <;> simp [mergePendingCalls]

/-- Every fetched call identifier is present in the merge result. -/
lemma mergePendingCalls_mem_any (prev fetched : List VCall) (nc : VCall)
    (h : nc ∈ fetched) :
    (mergePendingCalls prev fetched).any
        (fun ec => ec.call_id == nc.call_id) = true := by
  rw [mergePendingCalls_eq, List.any_append]
  cases hpa : prev.any (fun ec => ec.call_id == nc.call_id) with
  | true => simp
  | false =>
    apply Bool.or_eq_true_iff.mpr
    right
    apply List.any_eq_true.mpr
    refine ⟨nc, List.mem_filter.mpr ⟨h, ?_⟩, by simp⟩
    simp [hpa]

/-- Claim C6: the pending-call merge is idempotent — merging the same
fetched list a second time adds nothing — and, when the incoming set and the
fetched list each carry pairwise distinct call identifiers, the merged set
again carries pairwise distinct call identifiers: one entry per identifier,
not two. -/
theorem mergePendingCalls_idempotent (prev fetched : List VCall) :
    mergePendingCalls (mergePendingCalls prev fetched) fetched
        = mergePendingCalls prev fetched ∧
    ((callIds prev).Nodup → (callIds fetched).Nodup →
      (callIds (mergePendingCalls prev fetched)).Nodup) := by
  constructor
  · rw [mergePendingCalls_eq (mergePendingCalls prev fetched) fetched]
    have hfil : fetched.filter
        (fun nc => !(mergePendingCalls prev fetched).any
          (fun ec => ec.call_id == nc.call_id)) = [] := by
      apply List.filter_eq_nil_iff.mpr
      intro nc hnc
      simp [mergePendingCalls_mem_any prev fetched nc hnc]
    rw [hfil, List.append_nil]
  · intro hp hf
    rw [mergePendingCalls_eq]
    unfold callIds at *
    rw [List.map_append, List.nodup_append]
    refine ⟨hp, ?_, ?_⟩
    · exact hf.sublist (List.Sublist.map VCall.call_id
        (List.filter_sublist fetched))
    · intro x hx hx2
      obtain ⟨nc, hncmem, hncid⟩ := List.mem_map.mp hx2
      have hkeep := (List.mem_filter.mp hncmem).2
      obtain ⟨ep, hepmem, hepid⟩ := List.mem_map.mp hx
      have : prev.any (fun ec => ec.call_id == nc.call_id) = true := by
        apply List.any_eq_true.mpr
        refine ⟨ep, hepmem, ?_⟩
        simp [hepid, hncid]
      simp [this] at hkeep

/-- Concrete instantiation of the idempotent merge: one already-known call
and one new call, fetched twice. -/
theorem mergePendingCalls_witness :
    (callIds [⟨1, 7, "ringing"⟩]).Nodup ∧
    (callIds [⟨1, 7, "ringing"⟩, ⟨2, 8, "ringing"⟩]).Nodup ∧
    (callIds (mergePendingCalls [⟨1, 7, "ringing"⟩]
      [⟨1, 7, "ringing"⟩, ⟨2, 8, "ringing"⟩])).Nodup := by
  refine ⟨by decide, by decide, ?_⟩
  exact (mergePendingCalls_idempotent [⟨1, 7, "ringing"⟩]
    [⟨1, 7, "ringing"⟩, ⟨2, 8, "ringing"⟩]).2 (by decide) (by decide)

/-- Claim C7: whenever the reject command returns a result — whether it
reports success or failure — the rejected call identifier is filtered out of
the incoming-call set, so no call with that identifier remains locally
ringing. -/
theorem rejectVoiceCall_removes_call (incoming : List VCall) (callId : Nat)
    (r : CmdResult) :
    (rejectVoiceCall incoming callId (Except.ok r)).1
        = incoming.filter (fun c => c.call_id != callId) ∧
    ∀ c ∈ (rejectVoiceCall incoming callId (Except.ok r)).1,
      c.call_id ≠ callId := by
  have heq : (rejectVoiceCall incoming callId (Except.ok r)).1
      = incoming.filter (fun c => c.call_id != callId) := by
    rcases r with ⟨s, e⟩
    cases s <;> simp [rejectVoiceCall]
  refine ⟨heq, ?_⟩
  intro c hc
  rw [heq] at hc
  have := (List.mem_filter.mp hc).2
  simpa using this

/-- Concrete instantiation of call rejection with a reported failure: the
rejected call 5 leaves the incoming set while call 6 stays. -/
theorem rejectVoiceCall_witness :
    (rejectVoiceCall [⟨5, 1, "ringing"⟩, ⟨6, 1, "ringing"⟩] 5
        (Except.ok ⟨false, none⟩)).1 = [⟨6, 1, "ringing"⟩] ∧
    VCall.call_id ⟨6, 1, "ringing"⟩ ≠ 5 := by
  constructor
  · exact ((rejectVoiceCall_removes_call [⟨5, 1, "ringing"⟩, ⟨6, 1, "ringing"⟩]
      5 ⟨false, none⟩).1).trans (by decide)
  · apply (rejectVoiceCall_removes_call [⟨5, 1, "ringing"⟩, ⟨6, 1, "ringing"⟩]
      5 ⟨false, none⟩).2 ⟨6, 1, "ringing"⟩
    rw [(rejectVoiceCall_removes_call [⟨5, 1, "ringing"⟩, ⟨6, 1, "ringing"⟩]
      5 ⟨false, none⟩).1]
    decide

/-- Claim C8, counterexample: two addNotification calls within the same
clock millisecond both derive their identifier from the same Date.now()
value, so the two notifications share the identifier 5 and the identifier
list of the collection is not duplicate-free. -/
theorem addNotification_same_tick_collision :
    (addNotification (addNotification [] 5 "a" "info") 5 "b" "info").map
        Notification.id = [5, 5] ∧
    ¬ ((addNotification (addNotification [] 5 "a" "info") 5 "b" "info").map
        Notification.id).Nodup := by
  decide

/-- Claim C8, amended: two addNotification calls taken at strictly
increasing clock values receive distinct identifiers and the later
notification carries the strictly greater identifier; only calls within the
same clock millisecond collide. -/
theorem addNotification_ids_monotonic (notifs : List Notification)
    (t1 t2 : Nat) (m1 m2 y1 y2 : String) (h : t1 < t2) :
    (addNotification (addNotification notifs t1 m1 y1) t2 m2 y2).map
        Notification.id = notifs.map Notification.id ++ [t1, t2] ∧
    t1 ≠ t2 ∧ t1 < t2 := by
  refine ⟨?_, by omega, h⟩
  simp [addNotification]

/-- Concrete instantiation of identifier monotonicity at clock values 1
and 2. -/
theorem addNotification_ids_witness :
    (addNotification (addNotification [] 1 "a" "info") 2 "b" "info").map
        Notification.id = [1, 2] ∧ (1 : Nat) ≠ 2 := by
  constructor
  · exact (addNotification_ids_monotonic [] 1 2 "a" "b" "info" "info"
      (by omega)).1
  · exact (addNotification_ids_monotonic [] 1 2 "a" "b" "info" "info"
      (by omega)).2.1

/-- Claim C9: with a logged-in user, a sendMessage whose command reports
success appends exactly one envelope tagged sent with the given text to the
conversation keyed by the peer and leaves every other conversation key
unchanged; a sendMessage whose command reports failure, and one whose
command throws, leave the whole messages map unchanged. -/
theorem sendMessage_frame (msgs : String → List Envelope) (u : String)
    (peer text : String) (now : Nat) (r : CmdResult) (e : String) :
    (r.success = true →
      (sendMessage msgs (some u) peer text now (Except.ok r)).1 peer
          = msgs peer ++ [⟨now, text, u, "sent", now⟩] ∧
      ∀ k, k ≠ peer →
        (sendMessage msgs (some u) peer text now (Except.ok r)).1 k = msgs k) ∧
    (r.success = false →
      (sendMessage msgs (some u) peer text now (Except.ok r)).1 = msgs) ∧
    (sendMessage msgs (some u) peer text now (Except.error e)).1 = msgs := by
  refine ⟨?_, ?_, rfl⟩
  · intro hs
    constructor
    · simp [sendMessage, hs]
    · intro k hk
      simp [sendMessage, hs, hk]
  · intro hs
    simp [sendMessage, hs]

/-- Concrete instantiation of the sendMessage frame property: a successful
send to bob appends the envelope there and leaves carol untouched. -/
theorem sendMessage_frame_witness :
    (sendMessage (fun _ => []) (some "alice") "bob" "hi" 0
        (Except.ok ⟨true, none⟩)).1 "bob" = [⟨0, "hi", "alice", "sent", 0⟩] ∧
    (sendMessage (fun _ => []) (some "alice") "bob" "hi" 0
        (Except.ok ⟨true, none⟩)).1 "carol" = [] := by
  constructor
  · exact (((sendMessage_frame (fun _ => []) "alice" "bob" "hi" 0
      ⟨true, none⟩ "").1 rfl).1).trans (by decide)
  · exact ((sendMessage_frame (fun _ => []) "alice" "bob" "hi" 0
      ⟨true, none⟩ "").1 rfl).2 "carol" (by decide)

/-- Claim C10: whatever the logout_user command does — success, reported
failure, or a thrown transport error — logout clears the local user and the
stored error, clears the loading flag, and surfaces no error to its
caller. -/
theorem logout_always_clears_session (st : AuthState)
    (outcome : Except String CmdResult) :
    (logout st outcome).1.user = none ∧
    (logout st outcome).1.error = none ∧
    (logout st outcome).1.loading = false ∧
    (logout st outcome).2 = none := by
  cases outcome <;> simp [logout]
